import Mathlib

/-!
Verification of the ThreatZapper fleet-management core: a shallow embedding
of the device check-in protocol, the command queue, liveness evaluation and
device deletion, with theorems settling the specification claims.

The store is modelled as plain lists of rows (the spec treats the storage
engine as a generic relational store).  JavaScript truthiness coercions
(`x || default`, `if (a && b)`) that the route handlers rely on are embedded
explicitly via the `js*` helpers below.  Timestamps are integers
(milliseconds since epoch); numeric payload fields are integers.
-/

namespace ThreatZapper

/-- JS `s || null` on an optional string: the empty string is falsy. -/
def jsStr : Option String → Option String
  | none => none
  | some s => if s = "" then none else some s

/-- JS `s || d` on an optional string with a string default. -/
def jsStrD (d : String) : Option String → String
  | none => d
  | some s => if s = "" then d else s

/-- JS `n || d` on an optional number with a numeric default: 0 is falsy. -/
def jsIntD (d : Int) : Option Int → Int
  | none => d
  | some n => if n = 0 then d else n

/-- JS `n || null` on an optional number: 0 is falsy. -/
def jsInt : Option Int → Option Int
  | none => none
  | some n => if n = 0 then none else some n

/-- JS truthiness of an optional string field. -/
def jsTruthy : Option String → Bool
  | none => false
  | some s => !(s == "")

/-- A row of the `devices` table (geolocation coordinates abstracted to
integers; no claim depends on their numeric interpretation). -/
structure Device where
  deviceId : String
  name : Option String := none
  wifiIp : Option String := none
  mode : String := "bridge"
  firmware : String := "1.0.0"
  uptime : Int := 0
  blockedInbound : Int := 0
  blockedOutbound : Int := 0
  wifiSsid : Option String := none
  wifiSignal : Option Int := none
  macAddress : Option String := none
  publicIp : Option String := none
  publicLat : Option Int := none
  publicLng : Option Int := none
  publicCity : Option String := none
  publicCountry : Option String := none
  status : String := "online"
  lastSeen : Int := 0
  createdAt : Int := 0
  deriving Repr, DecidableEq

/-- A command payload document (`jsonb`); only the fields the validation
switch inspects are modelled, plus the pass-through `sha256`. -/
structure CmdPayload where
  url : Option String := none
  script : Option String := none
  path : Option String := none
  key : Option String := none
  value : Option String := none
  sha256 : Option String := none
  deriving Repr, DecidableEq

/-- A row of the `device_commands` table.  `deviceId = none` is a broadcast
command.  The `id` column is a uuid, modelled as a string. -/
structure Command where
  id : String
  deviceId : Option String := none
  commandType : String
  payload : CmdPayload := {}
  status : String := "pending"
  result : Option String := none
  createdAt : Int := 0
  sentAt : Option Int := none
  completedAt : Option Int := none
  deriving Repr, DecidableEq

/-- A row of the `block_events` table (fields the claims mention). -/
structure BlockEvent where
  deviceId : String
  deltaInbound : Int
  deltaOutbound : Int
  totalInbound : Int
  totalOutbound : Int
  deriving Repr, DecidableEq

/-- The `metrics` object of a check-in payload. -/
structure MetricsReport where
  diskTotalMb : Option Int := none
  diskUsedMb : Option Int := none
  memTotalMb : Option Int := none
  memUsedMb : Option Int := none
  cpuLoad : Option Int := none
  tempCelsius : Option Int := none
  deriving Repr, DecidableEq

/-- A row of the `device_metrics` table. -/
structure MetricsRow where
  deviceId : String
  report : MetricsReport
  deriving Repr, DecidableEq

/-- One entry of a check-in's `commandResults` array. -/
structure ResultEntry where
  id : Option String := none
  status : Option String := none
  message : Option String := none
  deriving Repr, DecidableEq

/-- Geolocation enrichment returned by the external IP lookup. -/
structure GeoData where
  lat : Int
  lng : Int
  city : String
  country : String
  deriving Repr, DecidableEq

/-- The JSON body of an authenticated check-in (after the 401/400 guards:
the API key was valid and `deviceId` was present). -/
structure CheckinPayload where
  deviceId : String
  wifiIp : Option String := none
  mode : Option String := none
  firmware : Option String := none
  uptime : Option Int := none
  blockedInbound : Option Int := none
  blockedOutbound : Option Int := none
  deltaInbound : Option Int := none
  deltaOutbound : Option Int := none
  wifiSsid : Option String := none
  wifiSignal : Option Int := none
  macAddress : Option String := none
  metrics : Option MetricsReport := none
  commandResults : List ResultEntry := []
  deriving Repr, DecidableEq

/-- The whole persisted state: the four tables. -/
structure Db where
  devices : List Device := []
  blockEvents : List BlockEvent := []
  deviceMetrics : List MetricsRow := []
  deviceCommands : List Command := []
  deriving Repr, DecidableEq

/-- A command as delivered in the check-in response (`id, command_type,
payload` columns of the pending fetch). -/
structure DeliveredCommand where
  id : String
  cmdType : String
  payload : CmdPayload
  deriving Repr, DecidableEq

/-- The `200` response body of a check-in. -/
structure CheckinResponse where
  deviceId : String
  deviceName : Option String
  commands : List DeliveredCommand
  deriving Repr, DecidableEq

/-! ### Device Registry upsert

Embeds the `supabase.from("devices").upsert({...}, { onConflict: "device_id" })`
call of the check-in route: every listed column is written with its
JS-coerced value; on conflict the existing row keeps only the columns the
upsert does not list (`name`, `created_at`). -/

/-- The column values the check-in upsert writes, applied over an existing
row (`d`): all reported mutable columns are overwritten with the JS-coerced
payload values. -/
def upsertColumns (d : Device) (p : CheckinPayload) (publicIp : Option String)
    (geo : Option GeoData) (now : Int) : Device :=
  { d with
    wifiIp := jsStr p.wifiIp
    mode := jsStrD "bridge" p.mode
    firmware := jsStrD "1.0.0" p.firmware
    uptime := jsIntD 0 p.uptime
    blockedInbound := jsIntD 0 p.blockedInbound
    blockedOutbound := jsIntD 0 p.blockedOutbound
    wifiSsid := jsStr p.wifiSsid
    wifiSignal := jsInt p.wifiSignal
    macAddress := jsStr p.macAddress
    publicIp := publicIp
    publicLat := jsInt (geo.map GeoData.lat)
    publicLng := jsInt (geo.map GeoData.lng)
    publicCity := jsStr (geo.map GeoData.city)
    publicCountry := jsStr (geo.map GeoData.country)
    status := "online"
    lastSeen := now }

/-- `INSERT ... ON CONFLICT (device_id) DO UPDATE`: update every row whose
`device_id` matches (the column is unique, so at most one in a well-formed
store), otherwise insert a fresh row whose unlisted columns take their
defaults (`name` null, `created_at` now). -/
def upsertDevice (devices : List Device) (p : CheckinPayload)
    (publicIp : Option String) (geo : Option GeoData) (now : Int) : List Device :=
  if devices.any (fun d => d.deviceId == p.deviceId) then
    devices.map (fun d =>
      if d.deviceId == p.deviceId then upsertColumns d p publicIp geo now else d)
  else
    devices ++ [upsertColumns { deviceId := p.deviceId, createdAt := now } p publicIp geo now]

/-! ### Command-result ingestion

Embeds the `commandResults` loop of the check-in route:
`if (result.id && result.status)` then `update({status, result, completed_at})
.eq("id", result.id)`. -/

/-- Process one `commandResults` entry.  The guard is JS truthiness of both
`id` and `status`; the update touches every stored command whose `id`
matches and is a no-op when none does (errors are not even inspected). -/
def ingestResult (cmds : List Command) (r : ResultEntry) (now : Int) : List Command :=
  if jsTruthy r.id && jsTruthy r.status then
    cmds.map (fun c =>
      if c.id == r.id.getD "" then
        { c with status := r.status.getD "", result := jsStr r.message,
                 completedAt := some now }
      else c)
  else cmds

/-- Process a whole `commandResults` array, in order. -/
def ingestResults (cmds : List Command) (rs : List ResultEntry) (now : Int) : List Command :=
  rs.foldl (fun acc r => ingestResult acc r now) cmds

/-! ### Command queue drain

Embeds the pending-command fetch plus mark-as-sent of the check-in route:
select `device_id = dev OR device_id IS NULL`, `status = 'pending'`,
ordered by `created_at` ascending, `limit 10`; then
`update({status:"sent", sent_at: now}).in("id", ids)`. -/

/-- The drain's row filter: targeted at this device or broadcast, and still
pending. -/
def pendingFor (dev : String) (c : Command) : Bool :=
  (c.deviceId == some dev || c.deviceId == none) && c.status == "pending"

/-- `ORDER BY created_at ASC` comparison. -/
def createdLe (a b : Command) : Prop := a.createdAt ≤ b.createdAt

instance : DecidableRel createdLe := fun a b => Int.decLe a.createdAt b.createdAt

instance : IsTotal Command createdLe := ⟨fun a b => Int.le_total a.createdAt b.createdAt⟩

instance : IsTrans Command createdLe := ⟨fun _ _ _ hab hbc => le_trans hab hbc⟩

/-- The per-check-in drain limit. -/
def drainLimit : Nat := 10

/-- The rows the pending fetch returns. -/
def selectPending (cmds : List Command) (dev : String) : List Command :=
  (List.insertionSort createdLe (cmds.filter (pendingFor dev))).take drainLimit

/-- Flip the selected rows to `sent` with `sent_at = now`. -/
def markSent (cmds : List Command) (ids : List String) (now : Int) : List Command :=
  cmds.map (fun c =>
    if ids.contains c.id then { c with status := "sent", sentAt := some now } else c)

/-- Drain pending commands for a checking-in device: returns the delivered
rows (as fetched, pre-update) and the updated store. -/
def drainPending (cmds : List Command) (dev : String) (now : Int) :
    List Command × List Command :=
  let sel := selectPending cmds dev
  (sel, markSent cmds (sel.map Command.id) now)

/-- A sequence of further drain steps (device, timestamp), applied to the
command store in order; models the command-queue effect of any sequence of
later check-ins. -/
def drainTrace (cmds : List Command) : List (String × Int) → List Command
  | [] => cmds
  | (d, t) :: rest => drainTrace (drainPending cmds d t).2 rest

/-! ### The check-in reconciler

Composition of the post-authentication steps of the check-in route: device
upsert, best-effort metrics insert, best-effort block-event insert,
best-effort command-result ingestion, pending-command drain, response. -/

/-- One authenticated check-in with a present `deviceId` (the 401 and 400
guards reject earlier and touch no state). -/
def checkin (db : Db) (p : CheckinPayload) (publicIp : Option String)
    (geo : Option GeoData) (now : Int) : Db × CheckinResponse :=
  let devices1 := upsertDevice db.devices p publicIp geo now
  let metrics1 := match p.metrics with
    | some m => db.deviceMetrics ++ [{ deviceId := p.deviceId, report := m }]
    | none => db.deviceMetrics
  let deltaIn := jsIntD 0 p.deltaInbound
  let deltaOut := jsIntD 0 p.deltaOutbound
  let newEvent : BlockEvent :=
    { deviceId := p.deviceId, deltaInbound := deltaIn, deltaOutbound := deltaOut,
      totalInbound := jsIntD 0 p.blockedInbound,
      totalOutbound := jsIntD 0 p.blockedOutbound }
  let events1 :=
    if deltaIn > 0 || deltaOut > 0 then db.blockEvents ++ [newEvent]
    else db.blockEvents
  let cmds1 := ingestResults db.deviceCommands p.commandResults now
  let drained := drainPending cmds1 p.deviceId now
  ({ devices := devices1, blockEvents := events1, deviceMetrics := metrics1,
     deviceCommands := drained.2 },
   { deviceId := p.deviceId
     deviceName := ((devices1.find? (fun d => d.deviceId == p.deviceId)).map Device.name).join
     commands := drained.1.map (fun c =>
       { id := c.id, cmdType := c.commandType, payload := c.payload }) })

/-! ### Command creation -/

/-- Errors of the administrative command-creation endpoint. -/
inductive CmdError where
  | invalidCommandType
  | invalidPayload
  | deviceNotFound
  deriving Repr, DecidableEq

/-- The closed command-type enumeration (`VALID_COMMANDS`). -/
def VALID_COMMANDS : List String :=
  ["update_blocklist", "exec", "reboot", "update_firmware", "set_config", "file_download"]

/-- The payload-validation switch of the creation route, as a guard. -/
def payloadOk (t : String) (payload : CmdPayload) : Bool :=
  if t == "update_blocklist" || t == "update_firmware" then jsTruthy payload.url
  else if t == "exec" then jsTruthy payload.script
  else if t == "file_download" then jsTruthy payload.url && jsTruthy payload.path
  else if t == "set_config" then jsTruthy payload.key && payload.value.isSome
  else true

/-- The command-creation route (POST): validates the type against the closed
enumeration, coerces `deviceId || null` (an empty string becomes a
broadcast), checks device existence for a non-null target, validates the
payload per type, and inserts a `pending` row. -/
def createCommand (devices : List Device) (deviceIdIn : Option String)
    (typeIn : Option String) (payloadIn : Option CmdPayload)
    (newId : String) (now : Int) : Except CmdError Command :=
  if !(jsTruthy typeIn) || !(VALID_COMMANDS.contains (typeIn.getD "")) then
    .error .invalidCommandType
  else
    let t := typeIn.getD ""
    let did := jsStr deviceIdIn
    let deviceOk := match did with
      | some d => devices.any (fun dev => dev.deviceId == d)
      | none => true
    if !deviceOk then .error .deviceNotFound
    else
      let payload := payloadIn.getD {}
      if !(payloadOk t payload) then .error .invalidPayload
      else .ok { id := newId, deviceId := did, commandType := t,
                 payload := payload, status := "pending", createdAt := now }

/-! ### Liveness -/

/-- `isDeviceOnline` (src/lib `device.ts`): the device is online when its
`lastSeen` is strictly more recent than five minutes before `now`
(milliseconds). -/
def isDeviceOnline (d : Device) (now : Int) : Bool :=
  now - 5 * 60 * 1000 < d.lastSeen

/-! ### Device deletion -/

/-- Errors of the device read/delete endpoints. -/
inductive ApiError where
  | notFound
  deriving Repr, DecidableEq

/-- GET of a single device: `NotFound` when no row matches. -/
def getDevice (db : Db) (id : String) : Except ApiError Device :=
  match db.devices.find? (fun d => d.deviceId == id) with
  | some d => .ok d
  | none => .error .notFound

/-- DELETE of a device: verifies existence, then removes the device's block
events, metrics and targeted commands (the `eq("device_id", id)` filters do
not match broadcast commands, whose `device_id` is null), then the device
row, in that order. -/
def deleteDevice (db : Db) (id : String) : Except ApiError Db :=
  match db.devices.find? (fun d => d.deviceId == id) with
  | none => .error .notFound
  | some _ =>
    .ok { devices := db.devices.filter (fun d => !(d.deviceId == id))
          blockEvents := db.blockEvents.filter (fun e => !(e.deviceId == id))
          deviceMetrics := db.deviceMetrics.filter (fun m => !(m.deviceId == id))
          deviceCommands := db.deviceCommands.filter (fun c => !(c.deviceId == some id)) }

/-! ### Concrete fixtures

Small concrete stores and payloads used by the witness and counterexample
theorems below. -/

/-- A registered device with stored optional fields and nonzero counters. -/
def exDevice : Device :=
  { deviceId := "AA", name := some "office", wifiIp := some "10.1.2.3",
    blockedInbound := 100, blockedOutbound := 20, createdAt := 1 }

/-- A store holding just `exDevice`. -/
def exDb : Db := { devices := [exDevice] }

/-- A check-in payload that omits every optional field. -/
def exOmitPayload : CheckinPayload := { deviceId := "AA" }

/-- A check-in payload reporting a negative (nonzero) delta. -/
def exNegPayload : CheckinPayload := { deviceId := "AA", deltaInbound := some (-1) }

/-- A check-in payload reporting a positive inbound delta and totals. -/
def exDeltaPayload : CheckinPayload :=
  { deviceId := "AA", deltaInbound := some 5, deltaOutbound := some 0,
    blockedInbound := some 105, blockedOutbound := some 20 }

/-- A check-in payload reporting counters lower than `exDevice` stores. -/
def exLowerPayload : CheckinPayload :=
  { deviceId := "AA", blockedInbound := some 40, blockedOutbound := some 5 }

/-- Fifteen pending commands targeted at device "AA", in creation order. -/
def fifteenCommands : List Command :=
  (List.range 15).map (fun i =>
    { id := toString i, deviceId := some "AA", commandType := "reboot",
      createdAt := (i : Int) })

/-- A pending broadcast command (`deviceId` null). -/
def exBroadcastCmd : Command := { id := "b1", commandType := "reboot", createdAt := 3 }

/-- A pending command targeted at device "BB". -/
def exForeignCmd : Command :=
  { id := "c1", deviceId := some "BB", commandType := "exec",
    payload := { script := some "ls" }, createdAt := 2 }

/-- A result entry whose `status` is present but empty (falsy). -/
def exEmptyStatusEntry : ResultEntry := { id := some "c1", status := some "" }

/-- A result entry carrying a status outside the documented enumeration. -/
def exBogusEntry : ResultEntry :=
  { id := some "c1", status := some "bogus", message := some "done" }

/-- An `update_blocklist`-shaped payload. -/
def exUrlPayload : CmdPayload := { url := some "https://x" }

/-- A store with two devices and dependent rows for each, plus a broadcast
command. -/
def exDeleteDb : Db :=
  { devices := [exDevice, { deviceId := "BB" }],
    blockEvents := [⟨"AA", 1, 0, 1, 0⟩, ⟨"BB", 2, 0, 2, 0⟩],
    deviceMetrics := [⟨"AA", {}⟩],
    deviceCommands := [{ id := "t1", deviceId := some "AA", commandType := "reboot" },
      exBroadcastCmd] }

/-! ### Helper lemmas about the drain -/

/-- Strings: membership gives `contains`. -/
theorem contains_of_mem {l : List String} {a : String} (h : a ∈ l) :
    l.contains a = true := by
  simpa using h

/-- Every selected row comes from the store, matches the device (or is a
broadcast) and is pending. -/
theorem mem_selectPending {cmds : List Command} {dev : String} {c : Command}
    (h : c ∈ selectPending cmds dev) :
    c ∈ cmds ∧ (c.deviceId = some dev ∨ c.deviceId = none) ∧ c.status = "pending" := by
  unfold selectPending at h
  have h1 : c ∈ List.insertionSort createdLe (cmds.filter (pendingFor dev)) :=
    List.take_subset _ _ h
  rw [(List.perm_insertionSort createdLe _).mem_iff] at h1
  have h2 := List.mem_filter.mp h1
  refine ⟨h2.1, ?_⟩
  have h3 := h2.2
  simp only [pendingFor, Bool.and_eq_true, Bool.or_eq_true, beq_iff_eq] at h3
  exact h3

/-- The selection is capped at the drain limit. -/
theorem length_selectPending (cmds : List Command) (dev : String) :
    (selectPending cmds dev).length ≤ drainLimit := by
  unfold selectPending
  exact List.length_take_le _ _

/-- The selection is sorted by `created_at` ascending. -/
theorem sorted_selectPending (cmds : List Command) (dev : String) :
    List.Sorted createdLe (selectPending cmds dev) :=
  List.Pairwise.sublist (List.take_sublist _ _) (List.sorted_insertionSort createdLe _)

/-- Rows of the post-drain store are images of rows of the pre-drain store. -/
theorem mem_markSent {cmds : List Command} {ids : List String} {now : Int} {c' : Command}
    (h : c' ∈ markSent cmds ids now) :
    ∃ c ∈ cmds, c' = if ids.contains c.id then
      { c with status := "sent", sentAt := some now } else c := by
  unfold markSent at h
  obtain ⟨c, hc, rfl⟩ := List.mem_map.mp h
  exact ⟨c, hc, rfl⟩

/-- Any post-drain row whose id was selected is `sent` with `sent_at` set. -/
theorem markSent_of_mem_ids {cmds : List Command} {ids : List String} {now : Int}
    {c' : Command} (h : c' ∈ markSent cmds ids now) (hid : c'.id ∈ ids) :
    c'.status = "sent" ∧ c'.sentAt = some now := by
  obtain ⟨c, hc, heq⟩ := mem_markSent h
  by_cases hmem : ids.contains c.id
  · rw [if_pos hmem] at heq
    subst heq
    exact ⟨rfl, rfl⟩
  · rw [if_neg hmem] at heq
    subst heq
    exact absurd (contains_of_mem hid) hmem

/-- Every drained command leaves a `sent` row with its id in the new store. -/
theorem drain_sent_of_mem {cmds : List Command} {dev : String} {now : Int}
    {c : Command} (h : c ∈ (drainPending cmds dev now).1) :
    ∃ c' ∈ (drainPending cmds dev now).2, c'.id = c.id ∧
      c'.status = "sent" ∧ c'.sentAt = some now := by
  have hc : c ∈ cmds := (mem_selectPending h).1
  have hid : c.id ∈ (selectPending cmds dev).map Command.id :=
    List.mem_map.mpr ⟨c, h, rfl⟩
  have hcont := contains_of_mem hid
  refine ⟨{ c with status := "sent", sentAt := some now }, ?_, rfl, rfl, rfl⟩
  show _ ∈ markSent cmds ((selectPending cmds dev).map Command.id) now
  exact List.mem_map.mpr ⟨c, hc, by rw [if_pos hcont]⟩

/-- A drain never makes a row with a given id pending again. -/
theorem drain_preserves_no_pending {cmds : List Command} {i : String}
    (h : ∀ c ∈ cmds, c.id = i → c.status ≠ "pending") (dev : String) (now : Int) :
    ∀ c' ∈ (drainPending cmds dev now).2, c'.id = i → c'.status ≠ "pending" := by
  intro c' hc' hi
  obtain ⟨c, hc, heq⟩ := mem_markSent hc'
  by_cases hmem : ((selectPending cmds dev).map Command.id).contains c.id
  · rw [if_pos hmem] at heq
    subst heq
    simp
  · rw [if_neg hmem] at heq
    subst heq
    exact h _ hc hi

/-- A drain returns no command whose id has no pending row. -/
theorem drain_skips_no_pending {cmds : List Command} {i : String}
    (h : ∀ c ∈ cmds, c.id = i → c.status ≠ "pending") (dev : String) (now : Int) :
    i ∉ (drainPending cmds dev now).1.map Command.id := by
  intro hmem
  obtain ⟨c, hc, rfl⟩ := List.mem_map.mp hmem
  exact h c (mem_selectPending hc).1 rfl (mem_selectPending hc).2.2

/-- No sequence of later drains makes a row with a given id pending again. -/
theorem drainTrace_preserves_no_pending {i : String} :
    ∀ (tr : List (String × Int)) (cmds : List Command),
      (∀ c ∈ cmds, c.id = i → c.status ≠ "pending") →
      ∀ c' ∈ drainTrace cmds tr, c'.id = i → c'.status ≠ "pending" := by
  intro tr
  induction tr with
  | nil => intro cmds h; exact h
  | cons step rest ih =>
    intro cmds h
    exact ih _ (drain_preserves_no_pending h step.1 step.2)

/-! ### Helper lemmas about result ingestion -/

/-- An entry whose truthiness guard fails changes nothing. -/
theorem ingest_guard_false {cmds : List Command} {r : ResultEntry} {now : Int}
    (h : (jsTruthy r.id && jsTruthy r.status) = false) :
    ingestResult cmds r now = cmds := by
  unfold ingestResult
  rw [h]
  rfl

/-- An entry whose id resolves to no stored command changes nothing. -/
theorem ingest_no_match {cmds : List Command} {r : ResultEntry} {now : Int}
    (h : ∀ c ∈ cmds, some c.id ≠ r.id) :
    ingestResult cmds r now = cmds := by
  by_cases hg : (jsTruthy r.id && jsTruthy r.status) = true
  · unfold ingestResult
    rw [hg]
    simp only [if_true]
    have hmap : ∀ c ∈ cmds,
        (if c.id == r.id.getD "" then
          { c with status := r.status.getD "", result := jsStr r.message,
                   completedAt := some now } else c) = c := by
      intro c hc
      rw [if_neg]
      intro hbeq
      have hid : r.id = some (r.id.getD "") := by
        cases hr : r.id with
        | none => rw [hr] at hg; simp [jsTruthy] at hg
        | some v => simp [hr]
      have : c.id = r.id.getD "" := by simpa using hbeq
      exact h c hc (by rw [this, ← hid])
    rw [List.map_congr_left hmap]
    exact List.map_id cmds
  · exact ingest_guard_false (by simpa using hg)

/-- A matched, truthy entry rewrites the matching row's status (verbatim),
result text and completion time. -/
theorem ingest_applies {cmds : List Command} {r : ResultEntry} {now : Int}
    {i s : String} {c : Command}
    (hi : r.id = some i) (hs : r.status = some s) (hine : i ≠ "") (hsne : s ≠ "")
    (hc : c ∈ cmds) (hcid : c.id = i) :
    ({ c with status := s, result := jsStr r.message, completedAt := some now } : Command)
      ∈ ingestResult cmds r now := by
  have hg : (jsTruthy r.id && jsTruthy r.status) = true := by
    rw [hi, hs]
    simp [jsTruthy, hine, hsne]
  unfold ingestResult
  rw [hg]
  simp only [if_true]
  refine List.mem_map.mpr ⟨c, hc, ?_⟩
  rw [hi, hs]
  have hcond : (c.id == (some i).getD "") = true := by simp [hcid]
  rw [if_pos hcond]
  rfl

/-- Rows with a different id survive an ingestion step untouched. -/
theorem ingest_other_id {cmds : List Command} {r : ResultEntry} {now : Int}
    {c : Command} (hc : c ∈ cmds) (h : ¬(c.id = r.id.getD "")) :
    c ∈ ingestResult cmds r now := by
  by_cases hg : (jsTruthy r.id && jsTruthy r.status) = true
  · unfold ingestResult
    rw [hg]
    simp only [if_true]
    refine List.mem_map.mpr ⟨c, hc, ?_⟩
    rw [if_neg (by simpa using h)]
  · rw [ingest_guard_false (by simpa using hg)]
    exact hc

/-! ### Claims -/

/-- C1 counterexample: the claim says an upsert leaves a field the payload
omits at its prior stored value.  On the code the check-in upsert writes
`wifi_ip: data.wifiIp || null`, so a check-in omitting `wifiIp` clears the
stored value `some "10.1.2.3"` to `none`. -/
theorem checkin_upsert_clears_omitted_field_counterexample :
    exDevice.wifiIp = some "10.1.2.3" ∧ exOmitPayload.wifiIp = none ∧
    (checkin exDb exOmitPayload none none 999).1.devices.map Device.wifiIp = [none] := by
  decide

/-- C1 (amended): the check-in upsert overwrites every reported column on
every check-in; a field absent from the payload is replaced by its JS
default (`null` for wifiIp/wifiSsid/wifiSignal/macAddress, `"bridge"` for
mode, `"1.0.0"` for firmware, `0` for uptime) rather than retained.  Only
columns the upsert does not list (`name`, `created_at`) keep their prior
values; the counters follow last-write-wins with default 0. -/
theorem checkin_upsert_defaults_omitted_fields
    (db : Db) (p : CheckinPayload) (pub : Option String) (geo : Option GeoData)
    (now : Int) (d0 : Device) (hd0 : d0 ∈ db.devices) (hid : d0.deviceId = p.deviceId) :
    ∃ d' ∈ (checkin db p pub geo now).1.devices, d'.deviceId = p.deviceId ∧
      d'.name = d0.name ∧ d'.createdAt = d0.createdAt ∧
      (p.wifiIp = none → d'.wifiIp = none) ∧
      (p.mode = none → d'.mode = "bridge") ∧
      (p.firmware = none → d'.firmware = "1.0.0") ∧
      (p.uptime = none → d'.uptime = 0) ∧
      (p.wifiSsid = none → d'.wifiSsid = none) ∧
      (p.wifiSignal = none → d'.wifiSignal = none) ∧
      (p.macAddress = none → d'.macAddress = none) ∧
      d'.blockedInbound = jsIntD 0 p.blockedInbound ∧
      d'.blockedOutbound = jsIntD 0 p.blockedOutbound := by
  have hbeq : (d0.deviceId == p.deviceId) = true := by simp [hid]
  have hany : db.devices.any (fun d => d.deviceId == p.deviceId) = true :=
    List.any_eq_true.mpr ⟨d0, hd0, hbeq⟩
  have hdev : (checkin db p pub geo now).1.devices =
      db.devices.map (fun d =>
        if d.deviceId == p.deviceId then upsertColumns d p pub geo now else d) := by
    show upsertDevice db.devices p pub geo now = _
    unfold upsertDevice
    rw [if_pos hany]
  refine ⟨upsertColumns d0 p pub geo now, ?_, ?_⟩
  · rw [hdev]
    exact List.mem_map.mpr ⟨d0, hd0, by rw [if_pos hbeq]⟩
  · refine ⟨hid, rfl, rfl, ?_, ?_, ?_, ?_, ?_, ?_, ?_, rfl, rfl⟩
    all_goals intro h
    all_goals simp [upsertColumns, h, jsStr, jsStrD, jsIntD, jsInt]

/-- C1 witness: the amended theorem applied to the concrete store. -/
theorem checkin_upsert_defaults_omitted_fields_witness :
    (exDevice ∈ exDb.devices ∧ exDevice.deviceId = exOmitPayload.deviceId) ∧
    (∃ d' ∈ (checkin exDb exOmitPayload none none 999).1.devices,
      d'.deviceId = exOmitPayload.deviceId ∧
      d'.name = exDevice.name ∧ d'.createdAt = exDevice.createdAt ∧
      (exOmitPayload.wifiIp = none → d'.wifiIp = none) ∧
      (exOmitPayload.mode = none → d'.mode = "bridge") ∧
      (exOmitPayload.firmware = none → d'.firmware = "1.0.0") ∧
      (exOmitPayload.uptime = none → d'.uptime = 0) ∧
      (exOmitPayload.wifiSsid = none → d'.wifiSsid = none) ∧
      (exOmitPayload.wifiSignal = none → d'.wifiSignal = none) ∧
      (exOmitPayload.macAddress = none → d'.macAddress = none) ∧
      d'.blockedInbound = jsIntD 0 exOmitPayload.blockedInbound ∧
      d'.blockedOutbound = jsIntD 0 exOmitPayload.blockedOutbound) :=
  ⟨by decide,
    checkin_upsert_defaults_omitted_fields exDb exOmitPayload none none 999 exDevice
      (by decide) rfl⟩

/-- C2: a drain returns at most 10 commands, all pending rows of the store
targeted at the device or broadcast, ordered by `created_at` ascending; each
returned command's stored row becomes `sent` with `sent_at` set, and a
second drain for the same device returns none of the previously returned
ids. -/
theorem drainPending_filters_orders_caps_flips
    (cmds : List Command) (dev : String) (now : Int) :
    (drainPending cmds dev now).1.length ≤ 10 ∧
    (∀ c ∈ (drainPending cmds dev now).1,
      c ∈ cmds ∧ (c.deviceId = some dev ∨ c.deviceId = none) ∧ c.status = "pending") ∧
    List.Sorted createdLe (drainPending cmds dev now).1 ∧
    (∀ c ∈ (drainPending cmds dev now).1,
      ∃ c' ∈ (drainPending cmds dev now).2,
        c'.id = c.id ∧ c'.status = "sent" ∧ c'.sentAt = some now) ∧
    (∀ (now2 : Int), ∀ c2 ∈ (drainPending (drainPending cmds dev now).2 dev now2).1,
      c2.id ∉ (drainPending cmds dev now).1.map Command.id) := by
  refine ⟨length_selectPending cmds dev, ?_, sorted_selectPending cmds dev, ?_, ?_⟩
  · intro c hc
    exact mem_selectPending hc
  · intro c hc
    exact drain_sent_of_mem hc
  · intro now2 c2 h2 hmem
    have hpend := (mem_selectPending h2).2.2
    have hsent := (markSent_of_mem_ids (mem_selectPending h2).1 hmem).1
    rw [hsent] at hpend
    exact absurd hpend (by decide)

/-- C2 witness: fifteen pending commands for one device yield exactly the
ten oldest, and a second drain yields exactly the remaining five. -/
theorem drainPending_filters_orders_caps_flips_witness :
    ((drainPending fifteenCommands "AA" 100).1.map Command.id =
        ["0", "1", "2", "3", "4", "5", "6", "7", "8", "9"] ∧
      (drainPending (drainPending fifteenCommands "AA" 100).2 "AA" 200).1.map Command.id =
        ["10", "11", "12", "13", "14"]) ∧
    ((drainPending fifteenCommands "AA" 100).1.length ≤ 10 ∧
    (∀ c ∈ (drainPending fifteenCommands "AA" 100).1,
      c ∈ fifteenCommands ∧ (c.deviceId = some "AA" ∨ c.deviceId = none) ∧
        c.status = "pending") ∧
    List.Sorted createdLe (drainPending fifteenCommands "AA" 100).1 ∧
    (∀ c ∈ (drainPending fifteenCommands "AA" 100).1,
      ∃ c' ∈ (drainPending fifteenCommands "AA" 100).2,
        c'.id = c.id ∧ c'.status = "sent" ∧ c'.sentAt = some 100) ∧
    (∀ (now2 : Int),
      ∀ c2 ∈ (drainPending (drainPending fifteenCommands "AA" 100).2 "AA" now2).1,
      c2.id ∉ (drainPending fifteenCommands "AA" 100).1.map Command.id)) :=
  ⟨by decide, drainPending_filters_orders_caps_flips fifteenCommands "AA" 100⟩

/-- C3: once any device's drain delivers a broadcast command, every row with
its id is globally `sent`, and no later drain — by that device or any other,
after any sequence of further drains — ever returns its id again. -/
theorem broadcast_claimed_by_first_drain
    (cmds : List Command) (c : Command) (devA : String) (t0 : Int)
    (hmem : c ∈ cmds) (hbro : c.deviceId = none) (hpend : c.status = "pending")
    (hdrained : c.id ∈ (drainPending cmds devA t0).1.map Command.id) :
    (∀ c' ∈ (drainPending cmds devA t0).2, c'.id = c.id →
      c'.status = "sent" ∧ c'.sentAt = some t0) ∧
    (∀ (tr : List (String × Int)) (devB : String) (t1 : Int),
      c.id ∉ (drainPending (drainTrace (drainPending cmds devA t0).2 tr) devB t1).1.map
        Command.id) := by
  have hfirst : ∀ c' ∈ (drainPending cmds devA t0).2, c'.id = c.id →
      c'.status = "sent" ∧ c'.sentAt = some t0 := by
    intro c' hc' hid
    exact markSent_of_mem_ids hc' (hid ▸ hdrained)
  refine ⟨hfirst, ?_⟩
  intro tr devB t1
  have hinv : ∀ c' ∈ (drainPending cmds devA t0).2, c'.id = c.id →
      c'.status ≠ "pending" := by
    intro c' hc' hid
    rw [(hfirst c' hc' hid).1]
    decide
  exact drain_skips_no_pending (drainTrace_preserves_no_pending tr _ hinv) devB t1

/-- C3 witness: a single pending broadcast command drained by device "AA" is
never returned by any later drain. -/
theorem broadcast_claimed_by_first_drain_witness :
    (exBroadcastCmd ∈ [exBroadcastCmd] ∧ exBroadcastCmd.deviceId = none ∧
      exBroadcastCmd.status = "pending" ∧
      exBroadcastCmd.id ∈ (drainPending [exBroadcastCmd] "AA" 9).1.map Command.id) ∧
    ((∀ c' ∈ (drainPending [exBroadcastCmd] "AA" 9).2, c'.id = exBroadcastCmd.id →
      c'.status = "sent" ∧ c'.sentAt = some 9) ∧
    (∀ (tr : List (String × Int)) (devB : String) (t1 : Int),
      exBroadcastCmd.id ∉
        (drainPending (drainTrace (drainPending [exBroadcastCmd] "AA" 9).2 tr) devB t1).1.map
          Command.id)) :=
  ⟨by decide,
    broadcast_claimed_by_first_drain [exBroadcastCmd] exBroadcastCmd "AA" 9
      (by decide) (by decide) (by decide) (by decide)⟩

/-- C4 counterexample: the claim says a non-null `deviceId` naming no
registered device fails with `DeviceNotFound`.  The code coerces
`data.deviceId || null`, so the non-null empty string — which names no
registered device — is treated as a broadcast and the creation succeeds. -/
theorem createCommand_empty_deviceId_counterexample :
    ((some "" : Option String) ≠ none) ∧
    (∀ d ∈ ([] : List Device), d.deviceId ≠ "") ∧
    createCommand [] (some "") (some "reboot") none "c1" 0 =
      Except.ok { id := "c1", deviceId := none, commandType := "reboot" } :=
  ⟨by decide, by decide, rfl⟩

/-- C4 (amended): command creation fails with `InvalidCommandType` for any
type outside the closed enumeration; with the type valid, a non-null,
non-empty `deviceId` naming no registered device fails with
`DeviceNotFound` (an empty-string `deviceId` is coerced to null/broadcast);
with the target resolved, a payload lacking the required fields for the
type fails with `InvalidPayload`; otherwise the created command has status
`pending`.  The required-field table matches the spec (`url` for
update_blocklist/update_firmware, `script` for exec, `url` and `path` for
file_download, `key` and `value` for set_config, nothing for reboot). -/
theorem createCommand_validation :
    (∀ (devs : List Device) (didIn tIn : Option String) (plIn : Option CmdPayload)
        (nid : String) (now : Int),
      (jsTruthy tIn = false ∨ (tIn.getD "") ∉ VALID_COMMANDS) →
      createCommand devs didIn tIn plIn nid now = .error .invalidCommandType) ∧
    (∀ (devs : List Device) (didIn tIn : Option String) (plIn : Option CmdPayload)
        (nid : String) (now : Int) (d : String),
      jsTruthy tIn = true → (tIn.getD "") ∈ VALID_COMMANDS → jsStr didIn = some d →
      (∀ dev ∈ devs, dev.deviceId ≠ d) →
      createCommand devs didIn tIn plIn nid now = .error .deviceNotFound) ∧
    (∀ (devs : List Device) (didIn tIn : Option String) (plIn : Option CmdPayload)
        (nid : String) (now : Int),
      jsTruthy tIn = true → (tIn.getD "") ∈ VALID_COMMANDS →
      (jsStr didIn = none ∨ ∃ dev ∈ devs, some dev.deviceId = jsStr didIn) →
      payloadOk (tIn.getD "") (plIn.getD {}) = false →
      createCommand devs didIn tIn plIn nid now = .error .invalidPayload) ∧
    (∀ (devs : List Device) (didIn tIn : Option String) (plIn : Option CmdPayload)
        (nid : String) (now : Int),
      jsTruthy tIn = true → (tIn.getD "") ∈ VALID_COMMANDS →
      (jsStr didIn = none ∨ ∃ dev ∈ devs, some dev.deviceId = jsStr didIn) →
      payloadOk (tIn.getD "") (plIn.getD {}) = true →
      createCommand devs didIn tIn plIn nid now =
        .ok { id := nid, deviceId := jsStr didIn, commandType := tIn.getD "",
              payload := plIn.getD {}, status := "pending", createdAt := now }) ∧
    (∀ pl : CmdPayload,
      payloadOk "update_blocklist" pl = jsTruthy pl.url ∧
      payloadOk "update_firmware" pl = jsTruthy pl.url ∧
      payloadOk "exec" pl = jsTruthy pl.script ∧
      payloadOk "file_download" pl = (jsTruthy pl.url && jsTruthy pl.path) ∧
      payloadOk "set_config" pl = (jsTruthy pl.key && pl.value.isSome) ∧
      payloadOk "reboot" pl = true) := by
  have hdok : ∀ (devs : List Device) (didIn : Option String),
      (jsStr didIn = none ∨ ∃ dev ∈ devs, some dev.deviceId = jsStr didIn) →
      (match jsStr didIn with
        | some d => devs.any (fun dev => dev.deviceId == d)
        | none => true) = true := by
    intro devs didIn h
    cases hd : jsStr didIn with
    | none => rfl
    | some d =>
      rcases h with h | ⟨dev, hdev, heq⟩
      · rw [hd] at h; exact absurd h (by simp)
      · rw [hd] at heq
        refine List.any_eq_true.mpr ⟨dev, hdev, ?_⟩
        simp only [Option.some.injEq] at heq
        simp [heq]
  refine ⟨?_, ?_, ?_, ?_, ?_⟩
  · intro devs didIn tIn plIn nid now h
    unfold createCommand
    rw [if_pos]
    rcases h with h | h
    · simp [h]
    · simp only [Bool.or_eq_true, Bool.not_eq_true']
      right
      simpa using h
  · intro devs didIn tIn plIn nid now d ht htv hdid hnone
    unfold createCommand
    rw [if_neg, hdid]
    · simp only
      rw [if_pos]
      simp only [Bool.not_eq_true']
      rw [List.any_eq_false]
      intro dev hdev
      simp [hnone dev hdev]
    · simp [ht, htv]
  · intro devs didIn tIn plIn nid now ht htv hdev hpl
    unfold createCommand
    rw [if_neg]
    · have := hdok devs didIn hdev
      simp only [this, Bool.not_true, if_neg]
      rw [if_neg (by simp)]
      rw [if_pos (by simp [hpl])]
    · simp [ht, htv]
  · intro devs didIn tIn plIn nid now ht htv hdev hpl
    unfold createCommand
    rw [if_neg]
    · have := hdok devs didIn hdev
      rw [if_neg (by simp [this])]
      rw [if_neg (by simp [hpl])]
    · simp [ht, htv]
  · intro pl
    exact ⟨rfl, rfl, rfl, rfl, rfl, rfl⟩

/-- C4 witness: each validation branch at concrete inputs, and a successful
creation with status `pending`. -/
theorem createCommand_validation_witness :
    (jsTruthy (some "update_blocklist") = true ∧
      "update_blocklist" ∈ VALID_COMMANDS ∧
      payloadOk "update_blocklist" exUrlPayload = true ∧
      createCommand [exDevice] none (some "bogus_type") none "c2" 0 =
        .error .invalidCommandType ∧
      createCommand [exDevice] (some "AA") (some "update_blocklist") (some {}) "c3" 0 =
        .error .invalidPayload ∧
      createCommand [exDevice] (some "ZZ") (some "reboot") none "c4" 0 =
        .error .deviceNotFound) ∧
    createCommand [exDevice] (some "AA") (some "update_blocklist") (some exUrlPayload) "c5" 0 =
      .ok { id := "c5", deviceId := some "AA", commandType := "update_blocklist",
            payload := exUrlPayload, status := "pending", createdAt := 0 } :=
  ⟨⟨by decide, by decide, by decide, rfl, rfl, rfl⟩,
    createCommand_validation.2.2.2.1 [exDevice] (some "AA") (some "update_blocklist")
      (some exUrlPayload) "c5" 0 (by decide) (by decide)
      (Or.inr ⟨exDevice, by decide, rfl⟩) (by decide)⟩

/-- C5: result ingestion never fails the check-in (it is a total rewrite of
the command store, applied entry by entry in order); an entry whose id
resolves to no stored command leaves the store unchanged, and a matched
entry sets the command's status, result text and `completed_at` — with no
precondition on the stored status, so a command still `pending` in storage
is force-transitioned. -/
theorem ingest_skips_unresolved_applies_matched :
    (∀ (cmds : List Command) (r : ResultEntry) (now : Int),
      (∀ c ∈ cmds, some c.id ≠ r.id) → ingestResult cmds r now = cmds) ∧
    (∀ (cmds : List Command) (r : ResultEntry) (now : Int) (i s : String) (c : Command),
      r.id = some i → r.status = some s → i ≠ "" → s ≠ "" → c ∈ cmds → c.id = i →
      ({ c with status := s, result := jsStr r.message, completedAt := some now } : Command)
        ∈ ingestResult cmds r now) ∧
    (∀ (cmds : List Command) (r : ResultEntry) (rs : List ResultEntry) (now : Int),
      ingestResults cmds (r :: rs) now = ingestResults (ingestResult cmds r now) rs now) := by
  refine ⟨?_, ?_, ?_⟩
  · intro cmds r now h
    exact ingest_no_match h
  · intro cmds r now i s c hi hs hine hsne hc hcid
    exact ingest_applies hi hs hine hsne hc hcid
  · intro cmds r rs now
    rfl

/-- C5 witness: an unresolved id is skipped (store unchanged), and a matched
entry force-completes a command that is still `pending`. -/
theorem ingest_skips_unresolved_applies_matched_witness :
    (exForeignCmd.status = "pending" ∧
      (∀ c ∈ [exForeignCmd], some c.id ≠ (some "zz" : Option String))) ∧
    ingestResult [exForeignCmd] { id := some "zz", status := some "completed" } 7 =
      [exForeignCmd] ∧
    ({ exForeignCmd with status := "completed", result := some "done", completedAt := some 7 } : Command) ∈
      ingestResult [exForeignCmd]
        { id := some "c1", status := some "completed", message := some "done" } 7 :=
  ⟨by decide,
    ingest_skips_unresolved_applies_matched.1 [exForeignCmd]
      { id := some "zz", status := some "completed" } 7 (by decide),
    ingest_skips_unresolved_applies_matched.2.1 [exForeignCmd]
      { id := some "c1", status := some "completed", message := some "done" } 7
      "c1" "completed" exForeignCmd rfl rfl (by decide) (by decide) (by decide) rfl⟩

/-- C6 counterexample: the claim says a BlockEvent is created precisely when
a reported delta is nonzero.  A check-in reporting `deltaInbound = -1`
(nonzero) creates no event, because the code tests `deltaIn > 0`. -/
theorem blockEvent_negative_delta_counterexample :
    jsIntD 0 exNegPayload.deltaInbound ≠ 0 ∧
    (checkin exDb exNegPayload none none 7).1.blockEvents = exDb.blockEvents := by
  decide

/-- C6 (amended): a check-in appends exactly one BlockEvent, carrying the
reported deltas and the reported cumulative totals, precisely when a
reported delta is positive (absent deltas default to 0); a check-in whose
deltas are both nonpositive — both zero, or negative — creates none. -/
theorem blockEvent_iff_positive_delta
    (db : Db) (p : CheckinPayload) (pub : Option String) (geo : Option GeoData)
    (now : Int) :
    ((jsIntD 0 p.deltaInbound > 0 ∨ jsIntD 0 p.deltaOutbound > 0) →
      (checkin db p pub geo now).1.blockEvents = db.blockEvents ++
        [{ deviceId := p.deviceId, deltaInbound := jsIntD 0 p.deltaInbound,
           deltaOutbound := jsIntD 0 p.deltaOutbound,
           totalInbound := jsIntD 0 p.blockedInbound,
           totalOutbound := jsIntD 0 p.blockedOutbound }]) ∧
    ((jsIntD 0 p.deltaInbound ≤ 0 ∧ jsIntD 0 p.deltaOutbound ≤ 0) →
      (checkin db p pub geo now).1.blockEvents = db.blockEvents) := by
  constructor
  · intro hpos
    show (if jsIntD 0 p.deltaInbound > 0 || jsIntD 0 p.deltaOutbound > 0
        then _ else _) = _
    rw [if_pos]
    simpa using hpos
  · intro hnonpos
    show (if jsIntD 0 p.deltaInbound > 0 || jsIntD 0 p.deltaOutbound > 0
        then _ else _) = _
    rw [if_neg]
    simp only [Bool.or_eq_true, decide_eq_true_eq]
    push_neg
    omega

/-- C6 witness: `deltaInbound = 5, deltaOutbound = 0` creates exactly one
event with those deltas and the reported totals. -/
theorem blockEvent_iff_positive_delta_witness :
    (jsIntD 0 exDeltaPayload.deltaInbound > 0 ∨ jsIntD 0 exDeltaPayload.deltaOutbound > 0) ∧
    (checkin exDb exDeltaPayload none none 7).1.blockEvents = exDb.blockEvents ++
      [{ deviceId := exDeltaPayload.deviceId,
         deltaInbound := jsIntD 0 exDeltaPayload.deltaInbound,
         deltaOutbound := jsIntD 0 exDeltaPayload.deltaOutbound,
         totalInbound := jsIntD 0 exDeltaPayload.blockedInbound,
         totalOutbound := jsIntD 0 exDeltaPayload.blockedOutbound }] :=
  ⟨by decide,
    (blockEvent_iff_positive_delta exDb exDeltaPayload none none 7).1 (by decide)⟩

/-- C7: a check-in reporting counters lower than the stored values is
accepted and overwrites them with the reported values — no rejection, no
clamping or max-merge. -/
theorem checkin_counters_last_write_wins
    (db : Db) (p : CheckinPayload) (pub : Option String) (geo : Option GeoData)
    (now : Int) (d0 : Device) (bi bo : Int)
    (hd0 : d0 ∈ db.devices) (hid : d0.deviceId = p.deviceId)
    (hbi : p.blockedInbound = some bi) (hbo : p.blockedOutbound = some bo)
    (hlow1 : bi < d0.blockedInbound) (hlow2 : bo < d0.blockedOutbound) :
    (∃ d' ∈ (checkin db p pub geo now).1.devices, d'.deviceId = p.deviceId) ∧
    (∀ d' ∈ (checkin db p pub geo now).1.devices, d'.deviceId = p.deviceId →
      d'.blockedInbound = bi ∧ d'.blockedOutbound = bo) := by
  have hbeq : (d0.deviceId == p.deviceId) = true := by simp [hid]
  have hany : db.devices.any (fun d => d.deviceId == p.deviceId) = true :=
    List.any_eq_true.mpr ⟨d0, hd0, hbeq⟩
  have hdev : (checkin db p pub geo now).1.devices =
      db.devices.map (fun d =>
        if d.deviceId == p.deviceId then upsertColumns d p pub geo now else d) := by
    show upsertDevice db.devices p pub geo now = _
    unfold upsertDevice
    rw [if_pos hany]
  have hin : jsIntD 0 p.blockedInbound = bi := by
    rw [hbi]; simp [jsIntD]; omega
  have hout : jsIntD 0 p.blockedOutbound = bo := by
    rw [hbo]; simp [jsIntD]; omega
  constructor
  · refine ⟨upsertColumns d0 p pub geo now, ?_, hid⟩
    rw [hdev]
    exact List.mem_map.mpr ⟨d0, hd0, by rw [if_pos hbeq]⟩
  · intro d' hd' hdid
    rw [hdev] at hd'
    obtain ⟨d, hd, heq⟩ := List.mem_map.mp hd'
    by_cases hc : (d.deviceId == p.deviceId) = true
    · rw [if_pos hc] at heq
      subst heq
      exact ⟨hin, hout⟩
    · rw [if_neg hc] at heq
      subst heq
      exact absurd (by simp [hdid]) hc

/-- C7 witness: stored counters 100/20, reported 40/5 — the stored record
becomes 40/5. -/
theorem checkin_counters_last_write_wins_witness :
    (exDevice ∈ exDb.devices ∧ exDevice.deviceId = exLowerPayload.deviceId ∧
      exLowerPayload.blockedInbound = some 40 ∧ exLowerPayload.blockedOutbound = some 5 ∧
      (40 : Int) < exDevice.blockedInbound ∧ (5 : Int) < exDevice.blockedOutbound ∧
      (checkin exDb exLowerPayload none none 7).1.devices.map Device.blockedInbound = [40] ∧
      (checkin exDb exLowerPayload none none 7).1.devices.map Device.blockedOutbound = [5]) ∧
    ((∃ d' ∈ (checkin exDb exLowerPayload none none 7).1.devices,
        d'.deviceId = exLowerPayload.deviceId) ∧
      (∀ d' ∈ (checkin exDb exLowerPayload none none 7).1.devices,
        d'.deviceId = exLowerPayload.deviceId →
        d'.blockedInbound = 40 ∧ d'.blockedOutbound = 5)) :=
  ⟨by decide,
    checkin_counters_last_write_wins exDb exLowerPayload none none 7 exDevice 40 5
      (by decide) rfl rfl rfl (by decide) (by decide)⟩

/-- C8: liveness is the pure strict comparison `now - lastSeen < 5 minutes`;
a device last seen four minutes ago is online, six minutes ago offline, and
the cached `status` field plays no role. -/
theorem isDeviceOnline_spec :
    (∀ (d : Device) (now : Int),
      isDeviceOnline d now = decide (now - d.lastSeen < 5 * 60 * 1000)) ∧
    (∀ (d : Device) (now : Int),
      isDeviceOnline { d with lastSeen := now - 4 * 60 * 1000 } now = true) ∧
    (∀ (d : Device) (now : Int),
      isDeviceOnline { d with lastSeen := now - 6 * 60 * 1000 } now = false) ∧
    (∀ (d : Device) (now : Int) (s : String),
      isDeviceOnline { d with status := s } now = isDeviceOnline d now) := by
  refine ⟨?_, ?_, ?_, ?_⟩
  · intro d now
    unfold isDeviceOnline
    exact decide_eq_decide.mpr (by omega)
  · intro d now
    simp only [isDeviceOnline, decide_eq_true_eq]
    omega
  · intro d now
    simp only [isDeviceOnline, decide_eq_false_iff_not]
    omega
  · intro d now s
    rfl

/-- C9: deleting a device fails with `NotFound` when absent; otherwise the
device's block events, metrics and targeted commands are removed along with
the device row, broadcast commands are left untouched, other devices' rows
survive, and a subsequent fetch of the device returns `NotFound`. -/
theorem deleteDevice_cascade_spec :
    (∀ (db : Db) (id : String), (∀ d ∈ db.devices, d.deviceId ≠ id) →
      deleteDevice db id = .error .notFound) ∧
    (∀ (db : Db) (id : String) (d0 : Device), d0 ∈ db.devices → d0.deviceId = id →
      ∃ db', deleteDevice db id = .ok db' ∧
        (∀ e ∈ db'.blockEvents, e.deviceId ≠ id) ∧
        (∀ m ∈ db'.deviceMetrics, m.deviceId ≠ id) ∧
        (∀ c ∈ db'.deviceCommands, c.deviceId ≠ some id) ∧
        (∀ c ∈ db.deviceCommands, c.deviceId = none → c ∈ db'.deviceCommands) ∧
        (∀ e ∈ db.blockEvents, e.deviceId ≠ id → e ∈ db'.blockEvents) ∧
        getDevice db' id = .error .notFound) := by
  constructor
  · intro db id h
    have hnone : db.devices.find? (fun d => d.deviceId == id) = none :=
      List.find?_eq_none.mpr (fun d hd => by simp [h d hd])
    unfold deleteDevice
    rw [hnone]
  · intro db id d0 hd0 hid
    have hsome : (db.devices.find? (fun d => d.deviceId == id)).isSome :=
      List.find?_isSome.mpr ⟨d0, hd0, by simp [hid]⟩
    obtain ⟨d, hfind⟩ := Option.isSome_iff_exists.mp hsome
    refine ⟨{ devices := db.devices.filter (fun d => !(d.deviceId == id)),
              blockEvents := db.blockEvents.filter (fun e => !(e.deviceId == id)),
              deviceMetrics := db.deviceMetrics.filter (fun m => !(m.deviceId == id)),
              deviceCommands := db.deviceCommands.filter (fun c => !(c.deviceId == some id)) },
            ?_, ?_, ?_, ?_, ?_, ?_, ?_⟩
    · unfold deleteDevice
      rw [hfind]
    · intro e he
      have := (List.mem_filter.mp he).2
      simpa using this
    · intro m hm
      have := (List.mem_filter.mp hm).2
      simpa using this
    · intro c hc
      have := (List.mem_filter.mp hc).2
      simpa using this
    · intro c hc hb
      exact List.mem_filter.mpr ⟨hc, by simp [hb]⟩
    · intro e he hne
      exact List.mem_filter.mpr ⟨he, by simp [hne]⟩
    · unfold getDevice
      have : (db.devices.filter (fun d => !(d.deviceId == id))).find?
          (fun d => d.deviceId == id) = none :=
        List.find?_eq_none.mpr (fun d hd => by
          have := (List.mem_filter.mp hd).2
          simpa using this)
      rw [this]

/-- C9 witness: deleting device "AA" from a two-device store removes its
dependents, keeps device "BB" rows and the broadcast command, and a fetch of
"AA" afterwards is `NotFound`. -/
theorem deleteDevice_cascade_spec_witness :
    (exDevice ∈ exDeleteDb.devices ∧ exDevice.deviceId = "AA") ∧
    (∃ db', deleteDevice exDeleteDb "AA" = .ok db' ∧
      (∀ e ∈ db'.blockEvents, e.deviceId ≠ "AA") ∧
      (∀ m ∈ db'.deviceMetrics, m.deviceId ≠ "AA") ∧
      (∀ c ∈ db'.deviceCommands, c.deviceId ≠ some "AA") ∧
      (∀ c ∈ exDeleteDb.deviceCommands, c.deviceId = none → c ∈ db'.deviceCommands) ∧
      (∀ e ∈ exDeleteDb.blockEvents, e.deviceId ≠ "AA" → e ∈ db'.blockEvents) ∧
      getDevice db' "AA" = .error .notFound) :=
  ⟨by decide, deleteDevice_cascade_spec.2 exDeleteDb "AA" exDevice (by decide) rfl⟩

/-- C10 counterexample: the claim says a result entry is applied iff its id
and status fields are both present.  An entry with both fields present but
an empty `status` string (falsy in JS) is skipped: the store is unchanged
and the matching command's `completed_at` stays unset. -/
theorem ingest_present_fields_not_applied_counterexample :
    (exEmptyStatusEntry.id ≠ none ∧ exEmptyStatusEntry.status ≠ none) ∧
    ingestResult [exForeignCmd] exEmptyStatusEntry 7 = [exForeignCmd] ∧
    exForeignCmd.completedAt = none := by
  decide

/-- C10 (amended): a result entry is applied iff its id and status are
truthy (present, and nonempty as strings); an applied entry updates every
stored command with that id, writing the device-reported status string
verbatim — no validation against the status enumeration and no check that
the command targets the reporting device — and rows with other ids are
untouched. -/
theorem ingest_truthy_guard_spec :
    (∀ (cmds : List Command) (r : ResultEntry) (now : Int),
      (jsTruthy r.id && jsTruthy r.status) = false → ingestResult cmds r now = cmds) ∧
    (∀ (cmds : List Command) (r : ResultEntry) (now : Int) (i s : String) (c : Command),
      r.id = some i → r.status = some s → i ≠ "" → s ≠ "" → c ∈ cmds → c.id = i →
      ({ c with status := s, result := jsStr r.message, completedAt := some now } : Command)
        ∈ ingestResult cmds r now) ∧
    (∀ (cmds : List Command) (r : ResultEntry) (now : Int) (c : Command),
      c ∈ cmds → ¬(c.id = r.id.getD "") → c ∈ ingestResult cmds r now) := by
  refine ⟨?_, ?_, ?_⟩
  · intro cmds r now h
    exact ingest_guard_false h
  · intro cmds r now i s c hi hs hine hsne hc hcid
    exact ingest_applies hi hs hine hsne hc hcid
  · intro cmds r now c hc h
    exact ingest_other_id hc h

/-- C10 witness: a status outside the enumeration ("bogus") is written
verbatim onto a command targeted at a different device ("BB") by a result
entry any device could report. -/
theorem ingest_truthy_guard_spec_witness :
    (exForeignCmd.deviceId = some "BB" ∧
      "bogus" ∉ (["pending", "sent", "acknowledged", "completed", "failed"] : List String) ∧
      exBogusEntry.id = some "c1" ∧ exBogusEntry.status = some "bogus") ∧
    ({ exForeignCmd with status := "bogus", result := some "done", completedAt := some 7 } : Command) ∈
      ingestResult [exForeignCmd] exBogusEntry 7 :=
  ⟨by decide,
    ingest_truthy_guard_spec.2.1 [exForeignCmd] exBogusEntry 7 "c1" "bogus" exForeignCmd
      rfl rfl (by decide) (by decide) (by decide) rfl⟩

end ThreatZapper
